import Mathlib

/-!
Shallow embedding of the knowledge-retrieval agent repository:
`agent_module.py` (vector retrieval tool), `pdf_to_png_converter.py`
(corpus preparer) and `chat_interface.py` (rendering cache, metrics
validation, chat transcript).  Machine-level details that the claims do
not touch (network transport, Streamlit widgets, actual file bytes) are
modelled by explicit state passing and `Except` for raised exceptions.
-/

namespace KRAgent

/-! ## Data model of a retrieval hit (`agent_module.py`)

A Pinecone match carries an id, a similarity score and metadata fields
`document_name`, `document_path`, `page_number`, `image_description`.
Scores are floats in the source; they are modelled as rationals, which is
faithful for the strict-comparison threshold logic the claims are about. -/

structure MatchMeta where
  document_name : String
  document_path : String
  page_number : String
  image_description : String
deriving DecidableEq

structure RMatch where
  id : String
  score : ℚ
  metadata : MatchMeta
deriving DecidableEq

/-- `score_threshold = 0.1` from `retreive_data_from_document`, the
rational one tenth. -/
def score_threshold : ℚ := mkRat 1 10

/-- The `for match in result['matches']` loop: appends to `match_list`
every match with `match['score'] > score_threshold`. -/
def matchLoop (acc : List RMatch) : List RMatch → List RMatch
  | [] => acc
  | m :: rest => matchLoop (if score_threshold < m.score then acc ++ [m] else acc) rest

/-- `match_list` as built by the loop, starting from the empty list. -/
def match_list (ms : List RMatch) : List RMatch := matchLoop [] ms

/-! ## `re.sub(r'_page_[0-9][0-9]\.png', '.pdf', name)`

Implemented as a left-to-right scan over the characters: at each
position, if the next characters are `_page_` followed by exactly two
digits and `.png`, that occurrence is replaced by `.pdf` and scanning
resumes after it; otherwise the character is kept. -/

def subPageF : Nat → List Char → List Char
  | 0, l => l
  | fuel + 1, l =>
    match l with
    | '_' :: 'p' :: 'a' :: 'g' :: 'e' :: '_' :: d1 :: d2 :: '.' :: 'p' :: 'n' :: 'g' :: rest =>
      if d1.isDigit && d2.isDigit then
        '.' :: 'p' :: 'd' :: 'f' :: subPageF fuel rest
      else
        '_' :: subPageF fuel ('p' :: 'a' :: 'g' :: 'e' :: '_' :: d1 :: d2 :: '.' :: 'p' :: 'n' :: 'g' :: rest)
    | c :: rest => c :: subPageF fuel rest
    | [] => []

/-- The scan with enough fuel for the whole input (every step consumes at
least one character). -/
def subPage (l : List Char) : List Char := subPageF l.length l

/-- `document_name = re.sub(r'_page_[0-9][0-9]\.png', '.pdf', top_name)`. -/
def deriveDocumentName (s : String) : String := String.mk (subPage s.data)

/-- `match['metadata']['document_path'].replace('\\', '/')`. -/
def normalizePath (s : String) : String :=
  String.mk (s.data.map (fun c => if c = '\\' then '/' else c))

/-- `match['metadata']['page_number'].replace('page_', '')`: removes every
occurrence of the five characters `page_`. -/
def stripPageTagF : Nat → List Char → List Char
  | 0, l => l
  | fuel + 1, l =>
    match l with
    | 'p' :: 'a' :: 'g' :: 'e' :: '_' :: rest => stripPageTagF fuel rest
    | c :: rest => c :: stripPageTagF fuel rest
    | [] => []

def stripPageTag (l : List Char) : List Char := stripPageTagF l.length l

def stripPageNumber (s : String) : String := String.mk (stripPageTag s.data)

/-- One entry of `page_description_list`:
`"Source: " + document_name + ", Page Number: " + page_number + ",\n Content: " + image_description + "\n"`. -/
def pageDescriptionEntry (document_name : String) (m : RMatch) : String :=
  "Source: " ++ document_name ++ ", Page Number: " ++ m.metadata.page_number
    ++ ",\n Content: " ++ m.metadata.image_description ++ "\n"

/-- The structured content of `match_dict` (the source stringifies it;
the claims are about its fields). -/
structure MatchDict where
  document_name : String
  document_path_list : List String
  page_number_list : List String
  page_description_list : List (List String)
  score : ℚ
  id : String
deriving DecidableEq

/-- Result of the retrieval tool: either the sentinel string
`"No relevant information found"` or the assembled `match_dict`. -/
inductive RetrieveResult where
  | noInfo : RetrieveResult
  | bundle : MatchDict → RetrieveResult
deriving DecidableEq

/-- Body of `retreive_data_from_document` after the index query returned
`result['matches']`: threshold filter, empty check, then assembly of
`match_dict` from `match_list`, with `document_name`, `score` and `id`
all taken from `match_list[0]`. -/
def processMatches (result_matches : List RMatch) : RetrieveResult :=
  let ml := match_list result_matches
  match ml with
  | [] => RetrieveResult.noInfo
  | m0 :: rest =>
    let document_name := deriveDocumentName m0.metadata.document_name
    RetrieveResult.bundle
      { document_name := document_name
        document_path_list := (m0 :: rest).map (fun m => normalizePath m.metadata.document_path)
        page_number_list := (m0 :: rest).map (fun m => stripPageNumber m.metadata.page_number)
        page_description_list :=
          (m0 :: rest).map (fun m => [pageDescriptionEntry document_name m])
        score := m0.score
        id := m0.id }

/-- `top_k=3` in `index.query(vector=..., top_k=3, include_metadata=True)`. -/
def retrieve_top_k : Nat := 3

/-- An exception raised by the embedding service or the index service. -/
abbrev ServiceError := String

/-- An embedding vector. -/
abbrev Embedding := List ℚ

/-- `retreive_data_from_document`: the embedding call and the index query
can raise; the function has no `try`/`except`, so a raised exception
propagates to the caller (`Except.error`).  On success the matches are
processed as in the source. -/
def retreive_data_from_document
    (embedded_query : Except ServiceError Embedding)
    (indexQuery : Embedding → Nat → Except ServiceError (List RMatch)) :
    Except ServiceError RetrieveResult :=
  match embedded_query with
  | Except.error e => Except.error e
  | Except.ok v =>
    match indexQuery v retrieve_top_k with
    | Except.error e => Except.error e
    | Except.ok result => Except.ok (processMatches result)

/-! ## Corpus preparer (`pdf_to_png_converter.py`) -/

/-- The character class of `re.sub(r'[\\/*?:"<>|]', "_", filename)`:
backslash, slash, asterisk, question mark, colon, double quote,
less-than, greater-than, vertical bar. -/
def invalid_filename_chars : List Char :=
  ['\\', '/', '*', '?', Char.ofNat 58, Char.ofNat 34, '<', '>', '|']

/-- `sanitize_filename`: every character of the class is replaced by an
underscore, all other characters are kept. -/
def sanitize_filename (s : String) : String :=
  String.mk (s.data.map (fun c => if c ∈ invalid_filename_chars then '_' else c))

/-- `f"{sanitized_pdf_name}_page_{page_num}.png"` with `page_num = i + 1`
for the `i`-th image of `enumerate(images)` (0-based `i`, 1-based page). -/
def image_file_name (sanitized_pdf_name : String) (i : Nat) : String :=
  sanitized_pdf_name ++ "_page_" ++ Nat.repr (i + 1) ++ ".png"

/-- `output_dir = DOCUMENTS_DIR / sanitized_pdf_name` with
`DOCUMENTS_DIR = Path("documents")`. -/
def output_dir (pdf_name : String) : String :=
  "documents/" ++ sanitize_filename pdf_name

/-- `image_path = output_dir / f"{sanitized_pdf_name}_page_{page_num}.png"`. -/
def image_path_str (pdf_name : String) (i : Nat) : String :=
  output_dir pdf_name ++ "/" ++ image_file_name (sanitize_filename pdf_name) i

/-- A PDF on disk: its stem (`pdf_path.stem`) together with the outcome of
reading and rasterizing it — either the number of pages, or the message of
the exception the page-count read / conversion / save raises. -/
structure PdfDoc where
  name : String
  conversion : Except String Nat

/-- The console events `convert_pdf_to_images` produces for one document. -/
inductive LogEvent where
  | processing (name : String)
  | saved (path : String)
  | success (name : String)
  | errorProcessing (name : String) (err : String)
deriving DecidableEq

/-- The body of the `try` block for one document: page count, conversion
and the per-page save loop.  A raised exception is an `Except.error`. -/
def convertDoc (doc : PdfDoc) : Except String (List LogEvent) :=
  match doc.conversion with
  | Except.error e => Except.error e
  | Except.ok num_pages =>
    Except.ok (((List.range num_pages).map
        (fun i => LogEvent.saved (image_path_str doc.name i)))
      ++ [LogEvent.success doc.name])

/-- One iteration of the `for pdf_path in pdf_files` loop: the `try` body
wrapped in `except Exception as e: print(f"Error processing ...")`, so a
failure is caught and logged instead of propagating. -/
def processOne (doc : PdfDoc) : List LogEvent :=
  LogEvent.processing doc.name ::
    (match convertDoc doc with
     | Except.ok evs => evs
     | Except.error e => [LogEvent.errorProcessing doc.name e])

/-- `convert_pdf_to_images`: the loop over all PDF files, in order. -/
def convert_pdf_to_images : List PdfDoc → List LogEvent
  | [] => []
  | doc :: rest => processOne doc ++ convert_pdf_to_images rest

/-! ## Chat interface (`chat_interface.py`)

### A model of `json.loads`

`main` validates `response.metrics_dict` with
`json.loads(response.metrics_dict.replace("'", '"'))`, substituting the
empty map on `json.JSONDecodeError`.  The JSON grammar accepted by
Python's `json.loads` with default settings (values: object, array,
string, number, `true`, `false`, `null`, and the non-standard constants
`NaN`, `Infinity`, `-Infinity`; JSON whitespace) is embedded as a
fuel-indexed recursive-descent parser over the characters; the fuel is
set from the input length, which bounds the nesting depth. -/

/-- The double-quote character. -/
def dquote : Char := Char.ofNat 34

/-- The single-quote character. -/
def squote : Char := Char.ofNat 39

inductive Json where
  | jnull : Json
  | jbool : Bool → Json
  | jnum : String → Json
  | jstr : String → Json
  | jarr : List Json → Json
  | jobj : List (String × Json) → Json

/-- JSON whitespace: space, tab, newline, carriage return. -/
def skipWs : List Char → List Char
  | c :: cs =>
    if c = ' ' ∨ c = Char.ofNat 9 ∨ c = Char.ofNat 10 ∨ c = Char.ofNat 13 then skipWs cs
    else c :: cs
  | [] => []

def isHexDigit (c : Char) : Bool :=
  c.isDigit || ('a' ≤ c && c ≤ 'f') || ('A' ≤ c && c ≤ 'F')

/-- Body of a JSON string after the opening quote: ordinary characters
(at or above U+0020, no quote, no backslash), the short escapes, and
`\uXXXX`; returns the content (escape sequences kept by their letter —
only well-formedness matters to the claims) and the remainder after the
closing quote. -/
def parseStringBodyF : Nat → List Char → Option (List Char × List Char)
  | 0, _ => none
  | fuel + 1, l =>
    match l with
    | [] => none
    | c :: cs =>
      if c = dquote then some ([], cs)
      else if c = '\\' then
        match cs with
        | [] => none
        | e :: cs2 =>
          if e = dquote ∨ e = '\\' ∨ e = '/' then
            (parseStringBodyF fuel cs2).map (fun p => (e :: p.1, p.2))
          else if e = 'b' ∨ e = 'f' ∨ e = 'n' ∨ e = 'r' ∨ e = 't' then
            (parseStringBodyF fuel cs2).map (fun p => (e :: p.1, p.2))
          else if e = 'u' then
            match cs2 with
            | h1 :: h2 :: h3 :: h4 :: cs3 =>
              if isHexDigit h1 && isHexDigit h2 && isHexDigit h3 && isHexDigit h4 then
                (parseStringBodyF fuel cs3).map (fun p => (e :: p.1, p.2))
              else none
            | _ => none
          else none
      else if c.toNat < 32 then none
      else (parseStringBodyF fuel cs).map (fun p => (c :: p.1, p.2))

def parseStringBody (cs : List Char) : Option (List Char × List Char) :=
  parseStringBodyF cs.length cs

/-- Splits off a maximal run of decimal digits. -/
def takeDigits : List Char → List Char × List Char
  | c :: cs =>
    if c.isDigit then
      let p := takeDigits cs
      (c :: p.1, p.2)
    else ([], c :: cs)
  | [] => ([], [])

/-- A JSON number: optional minus, integer part (`0` or nonzero-led
digits), optional fraction, optional exponent. -/
def parseNumber (cs : List Char) : Option (String × List Char) :=
  let (neg, cs1) :=
    match cs with
    | '-' :: rest => (['-'], rest)
    | _ => (([] : List Char), cs)
  match cs1 with
  | [] => none
  | d :: rest =>
    if ¬ d.isDigit then none
    else
      let (intPart, cs2) :=
        if d = '0' then ([d], rest)
        else takeDigits cs1
      let (fracPart, cs3) :=
        match cs2 with
        | '.' :: r =>
          let p := takeDigits r
          if p.1 = [] then (none, cs2) else (some ('.' :: p.1), p.2)
        | _ => (none, cs2)
      match fracPart, cs2 with
      | none, '.' :: _ => none
      | _, _ =>
        let fp := fracPart.getD []
        let (expPart, cs4) :=
          match cs3 with
          | e :: r =>
            if e = 'e' ∨ e = 'E' then
              let (sgn, r2) :=
                match r with
                | s :: r3 => if s = '+' ∨ s = '-' then ([s], r3) else (([] : List Char), r)
                | [] => ([], r)
              let p := takeDigits r2
              if p.1 = [] then (none, cs3) else (some (e :: (sgn ++ p.1)), p.2)
            else (none, cs3)
          | [] => (none, cs3)
        match expPart, cs3 with
        | none, e :: _ =>
          if e = 'e' ∨ e = 'E' then none
          else some (String.mk (neg ++ intPart ++ fp), cs3)
        | none, [] => some (String.mk (neg ++ intPart ++ fp), cs3)
        | some ep, _ => some (String.mk (neg ++ intPart ++ fp ++ ep), cs4)

mutual

/-- A JSON value, by recursive descent with fuel. -/
def parseValue : Nat → List Char → Option (Json × List Char)
  | 0, _ => none
  | fuel + 1, cs =>
    match skipWs cs with
    | [] => none
    | 'n' :: 'u' :: 'l' :: 'l' :: rest => some (Json.jnull, rest)
    | 't' :: 'r' :: 'u' :: 'e' :: rest => some (Json.jbool true, rest)
    | 'f' :: 'a' :: 'l' :: 's' :: 'e' :: rest => some (Json.jbool false, rest)
    | 'N' :: 'a' :: 'N' :: rest => some (Json.jnum "NaN", rest)
    | 'I' :: 'n' :: 'f' :: 'i' :: 'n' :: 'i' :: 't' :: 'y' :: rest =>
      some (Json.jnum "Infinity", rest)
    | '-' :: 'I' :: 'n' :: 'f' :: 'i' :: 'n' :: 'i' :: 't' :: 'y' :: rest =>
      some (Json.jnum "-Infinity", rest)
    | c :: rest =>
      if c = dquote then
        (parseStringBody rest).map (fun p => (Json.jstr (String.mk p.1), p.2))
      else if c = '[' then
        parseArray fuel (skipWs rest)
      else if c = Char.ofNat 123 then
        parseObject fuel (skipWs rest)
      else if c = '-' ∨ c.isDigit then
        (parseNumber (c :: rest)).map (fun p => (Json.jnum p.1, p.2))
      else none

/-- Elements of an array after `[` (leading whitespace already skipped). -/
def parseArray : Nat → List Char → Option (Json × List Char)
  | 0, _ => none
  | fuel + 1, cs =>
    match cs with
    | ']' :: rest => some (Json.jarr [], rest)
    | _ =>
      match parseValue fuel cs with
      | none => none
      | some (v, rest) =>
        (parseArrayRest fuel (skipWs rest)).map
          (fun p => (Json.jarr (v :: p.1), p.2))

/-- After one array element: either `]` or `,` and more elements. -/
def parseArrayRest : Nat → List Char → Option (List Json × List Char)
  | 0, _ => none
  | fuel + 1, cs =>
    match cs with
    | ']' :: rest => some ([], rest)
    | ',' :: rest =>
      match parseValue fuel rest with
      | none => none
      | some (v, rest2) =>
        (parseArrayRest fuel (skipWs rest2)).map (fun p => (v :: p.1, p.2))
    | _ => none

/-- Members of an object after the opening brace (leading whitespace
already skipped). -/
def parseObject : Nat → List Char → Option (Json × List Char)
  | 0, _ => none
  | fuel + 1, cs =>
    match cs with
    | c :: rest =>
      if c = Char.ofNat 125 then some (Json.jobj [], rest)
      else
        match parseMember fuel (c :: rest) with
        | none => none
        | some (kv, rest2) =>
          (parseObjectRest fuel (skipWs rest2)).map
            (fun p => (Json.jobj (kv :: p.1), p.2))
    | [] => none

/-- One `"key": value` member. -/
def parseMember : Nat → List Char → Option ((String × Json) × List Char)
  | 0, _ => none
  | fuel + 1, cs =>
    match cs with
    | c :: rest =>
      if c = dquote then
        match parseStringBody rest with
        | none => none
        | some (key, rest2) =>
          match skipWs rest2 with
          | k :: rest3 =>
            if k = Char.ofNat 58 then
              (parseValue fuel rest3).map (fun p => ((String.mk key, p.1), p.2))
            else none
          | [] => none
      else none
    | [] => none

/-- After one object member: either the closing brace or `,` and more. -/
def parseObjectRest : Nat → List Char → Option (List (String × Json) × List Char)
  | 0, _ => none
  | fuel + 1, cs =>
    match cs with
    | c :: rest =>
      if c = Char.ofNat 125 then some ([], rest)
      else if c = ',' then
        match parseMember fuel (skipWs rest) with
        | none => none
        | some (kv, rest2) =>
          (parseObjectRest fuel (skipWs rest2)).map (fun p => (kv :: p.1, p.2))
      else none
    | [] => none

end

/-- `json.loads`: parse one value and require only whitespace to remain. -/
def json_loads (s : String) : Option Json :=
  match parseValue (s.length + 1) s.data with
  | some (v, rest) => if skipWs rest = [] then some v else none
  | none => none

/-! ### Metrics validation and the chat transcript (`main`) -/

/-- The structured agent output (`agent_response` in `agent_module.py`). -/
structure AgentResponse where
  markdown_report : String
  document_path : List String
  page_number : String
  document_name : String
  pdf_path : String
  metrics_dict : String
deriving DecidableEq

/-- `response.metrics_dict.replace("'", '"')`. -/
def quoteSub (s : String) : String :=
  String.mk (s.data.map (fun c => if c = squote then dquote else c))

/-- The string `"{}"` assigned on a parse failure. -/
def emptyMapStr : String := "\x7b\x7d"

/-- The metrics validation in `main`: try `json.loads` on the
quote-substituted metrics string; on `json.JSONDecodeError` show a
warning and set `metrics_dict = "{}"`; otherwise keep the response
unchanged.  The boolean records whether `st.warning` was shown. -/
def validate_metrics (r : AgentResponse) : AgentResponse × Bool :=
  match json_loads (quoteSub r.metrics_dict) with
  | some _ => (r, false)
  | none => ({ r with metrics_dict := emptyMapStr }, true)

/-- One record of `st.session_state.chat_history`. -/
structure ChatRecord where
  query : String
  response : AgentResponse
  timestamp : String
deriving DecidableEq

/-- A completed turn:
`st.session_state.chat_history.insert(0, {"query": ..., "response": ..., "timestamp": ...})`
after the metrics validation. -/
def process_turn (history : List ChatRecord) (q : String) (r : AgentResponse)
    (t : String) : List ChatRecord :=
  { query := q, response := (validate_metrics r).1, timestamp := t } :: history

/-- The operations `main` ever performs on the transcript (it is created
empty and only `insert(0, ...)` mutates it; display only reads it). -/
inductive TranscriptOp where
  | completedTurn (q : String) (r : AgentResponse) (t : String)

/-- Effect of a transcript operation on the transcript. -/
def apply_transcript_op (history : List ChatRecord) : TranscriptOp → List ChatRecord
  | TranscriptOp.completedTurn q r t => process_turn history q r t

/-! ### `write_markdown_to_file` and its cache

`st.session_state.file_hashes` is a dict from markdown filename to the
recorded content hash; the disk is modelled as the set (list) of paths of
existing files.  Python's built-in `hash` of a string is deterministic
within a process; it is modelled by a concrete deterministic string
hash. -/

/-- Stand-in for Python's per-process-deterministic string `hash`. -/
def pyHash (s : String) : Int :=
  s.data.foldl (fun h c => (h * 31 + (c.toNat : Int)) % (2 ^ 64)) 0

/-- `repr` of a Python string (quoting; escapes elided). -/
def pyStrRepr (s : String) : String :=
  String.mk (squote :: s.data ++ [squote])

/-- `str(tuple(image_paths))`. -/
def pyTupleRepr : List String → String
  | [] => "()"
  | [x] => "(" ++ pyStrRepr x ++ ",)"
  | x :: y :: rest =>
    "(" ++ String.intercalate ", " ((x :: y :: rest).map pyStrRepr) ++ ")"

/-- `content_hash = hash(f"{content}_{tuple(image_paths)}")`. -/
def content_hash (content : String) (image_paths : List String) : Int :=
  pyHash (content ++ "_" ++ pyTupleRepr image_paths)

/-- `True` when `p` is a prefix of `l`. -/
def listStartsWith : List Char → List Char → Bool
  | [], _ => true
  | _ :: _, [] => false
  | p :: ps, c :: cs => p = c && listStartsWith ps cs

/-- Python `str.replace(pat, rep)` for a nonempty `pat`: left-to-right,
non-overlapping. -/
def replaceCharsF (pat rep : List Char) : Nat → List Char → List Char
  | 0, l => l
  | fuel + 1, l =>
    match l with
    | [] => []
    | c :: cs =>
      if listStartsWith pat (c :: cs) then
        rep ++ replaceCharsF pat rep fuel (List.drop (pat.length - 1) cs)
      else
        c :: replaceCharsF pat rep fuel cs

/-- `s.replace(pat, rep)`. -/
def strReplace (s pat rep : String) : String :=
  String.mk (replaceCharsF pat.data rep.data s.data.length s.data)

/-- `s.endswith(p)`. -/
def strEndsWith (s p : String) : Bool :=
  listStartsWith p.data.reverse s.data.reverse

/-- First-match lookup in the `file_hashes` dict (assoc list, newest
binding first). -/
def lookupHash : List (String × Int) → String → Option Int
  | [], _ => none
  | (k, v) :: rest, key => if k = key then some v else lookupHash rest key

/-- Session cache plus disk contents, the state `write_markdown_to_file`
reads and writes. -/
structure RenderState where
  file_hashes : List (String × Int)
  disk : List String
deriving DecidableEq

/-- `filename.replace('.pdf', '.md') if filename.endswith('.pdf') else filename`. -/
def md_filename (filename : String) : String :=
  if strEndsWith filename ".pdf" then strReplace filename ".pdf" ".md" else filename

/-- `filename.replace('.md', '.pdf')`. -/
def pdf_filename (filename : String) : String :=
  strReplace filename ".md" ".pdf"

/-- `write_markdown_to_file` (happy path of the outer `try`): if the
recorded hash for the markdown filename equals the content hash and the
PDF still exists, return the already-exists message without touching
anything; otherwise record the new hash, write the markdown file and the
PDF, and return the created message. -/
def write_markdown_to_file (st : RenderState) (content : String)
    (filename : String) (image_paths : List String) : String × RenderState :=
  let mdName := md_filename filename
  let pdfName := pdf_filename filename
  let h := content_hash content image_paths
  let cacheHit : Bool :=
    match lookupHash st.file_hashes mdName with
    | some recorded => recorded = h && st.disk.contains pdfName
    | none => false
  if cacheHit then
    ("File " ++ filename ++ " already exists with same content.", st)
  else
    ("File " ++ filename ++ " has been created successfully.",
     { file_hashes := (mdName, h) :: st.file_hashes
       disk := pdfName :: mdName :: st.disk })

/-! ### The `@st.cache_data` decorator on `write_markdown_to_file`

Streamlit's `@st.cache_data` memoizes the decorated function on its
argument tuple `(content, filename, image_paths)` for the session: a
repeated call with an identical argument tuple returns the recorded
return value without executing the body at all (so neither the hash
check nor any file write runs on such a call). -/

/-- First-match lookup in the memo table of `@st.cache_data`. -/
def lookupMemo :
    List ((String × String × List String) × String) →
    (String × String × List String) → Option String
  | [], _ => none
  | (k, v) :: rest, key => if k = key then some v else lookupMemo rest key

/-- Render state together with the `@st.cache_data` memo table of
`write_markdown_to_file`. -/
structure CachedState where
  inner : RenderState
  memo : List ((String × String × List String) × String)
deriving DecidableEq

/-- The decorated `write_markdown_to_file` as the program actually calls
it: a memo hit returns the recorded message and runs nothing; a memo
miss runs the body and records its returned message for the argument
tuple. -/
def write_markdown_to_file_cached (st : CachedState) (content filename : String)
    (image_paths : List String) : String × CachedState :=
  match lookupMemo st.memo (content, filename, image_paths) with
  | some msg => (msg, st)
  | none =>
    let r := write_markdown_to_file st.inner content filename image_paths
    (r.1, { inner := r.2, memo := ((content, filename, image_paths), r.1) :: st.memo })

/-! ## A definition following the spec's words, for comparison

The spec says the system checks "that the metrics field parses as a
key-value map".  Under the embedded `json.loads`, that reads: the
quote-substituted metrics string parses as a JSON value whose top-level
constructor is an object. -/

/-- Spec's words: the metrics string parses as a key-value map. -/
def is_key_value_map (s : String) : Bool :=
  match json_loads (quoteSub s) with
  | some (Json.jobj _) => true
  | _ => false

/-! ## Concrete sample inputs used by witnesses and counterexamples -/

/-- A match above the threshold, from document `alpha`. -/
def sampleM1 : RMatch :=
  ⟨"id1", mkRat 9 10,
   ⟨"alpha_page_01.png", "documents\\alpha\\alpha_page_01.png", "page_1", "descA"⟩⟩

/-- A second surviving match, from the different document `beta`. -/
def sampleM2 : RMatch :=
  ⟨"id2", mkRat 5 10,
   ⟨"beta_page_02.png", "documents\\beta\\beta_page_02.png", "page_2", "descB"⟩⟩

/-- A match whose score equals the threshold exactly. -/
def sampleMeq : RMatch :=
  ⟨"id3", mkRat 1 10,
   ⟨"gamma_page_01.png", "documents\\gamma\\gamma_page_01.png", "page_1", "descC"⟩⟩

/-- The `match_dict` the retrieval tool assembles for
`[sampleM1, sampleM2]`, written out literally. -/
def sampleBundle : MatchDict :=
  { document_name := "alpha.pdf"
    document_path_list :=
      ["documents/alpha/alpha_page_01.png", "documents/beta/beta_page_02.png"]
    page_number_list := ["1", "2"]
    page_description_list :=
      [["Source: alpha.pdf, Page Number: page_1,\n Content: descA\n"],
       ["Source: alpha.pdf, Page Number: page_2,\n Content: descB\n"]]
    score := mkRat 9 10
    id := "id1" }

/-- A PDF that converts cleanly into two pages. -/
def docAlpha : PdfDoc := ⟨"alpha", Except.ok 2⟩

/-- A PDF whose conversion raises. -/
def docBroken : PdfDoc := ⟨"bro|ken", Except.error "poppler failure"⟩

/-- A PDF after the failing one, converting into one page. -/
def docGamma : PdfDoc := ⟨"gamma", Except.ok 1⟩

/-- A render state whose cache already records `blog.md` with the hash of
`("hello", ["img.png"])` and whose disk holds `blog.pdf`. -/
def sampleRenderState : RenderState :=
  ⟨[("blog.md", content_hash "hello" ["img.png"])], ["blog.pdf"]⟩

/-- The same cache but with `blog.pdf` missing from disk. -/
def sampleRenderStateNoPdf : RenderState :=
  ⟨[("blog.md", content_hash "hello" ["img.png"])], []⟩

/-- An agent response whose metrics string is a JSON list: parseable,
but not a key-value map. -/
def respListMetrics : AgentResponse :=
  ⟨"report", [], "1", "alpha.pdf", "out.pdf", "[1, 2]"⟩

/-- An agent response whose metrics string is not JSON at all. -/
def respBadMetrics : AgentResponse :=
  ⟨"report", [], "1", "alpha.pdf", "out.pdf", "not json"⟩

/-- An agent response whose metrics string uses the non-standard `NaN`
constant that Python's `json.loads` accepts by default. -/
def respNaNMetrics : AgentResponse :=
  ⟨"report", [], "1", "alpha.pdf", "out.pdf", "\x7b\"a\": NaN\x7d"⟩

/-- The empty session: no memoized calls, no recorded hashes, no files. -/
def cachedState0 : CachedState := ⟨⟨[], []⟩, []⟩

/-- The session state after the first call
`write_markdown_to_file("hello", "blog.md", ["img.png"])`: hash
recorded, both files on disk, message memoized. -/
def cachedState1 : CachedState :=
  (write_markdown_to_file_cached cachedState0 "hello" "blog.md" ["img.png"]).2

/-- The same session with `blog.pdf` deleted from disk. -/
def cachedState1NoPdf : CachedState :=
  ⟨⟨cachedState1.inner.file_hashes, ["blog.md"]⟩, cachedState1.memo⟩

/-! ## Helper lemmas -/

/-- The append-accumulating loop of `retreive_data_from_document` builds
exactly the filter of the input by the threshold predicate. -/
theorem matchLoop_eq_filter (ms : List RMatch) :
    ∀ acc : List RMatch,
      matchLoop acc ms = acc ++ ms.filter (fun m => decide (score_threshold < m.score)) := by
  induction ms with
  | nil => intro acc; simp [matchLoop]
  | cons m rest ih =>
    intro acc
    by_cases h : score_threshold < m.score
    · simp [matchLoop, List.filter_cons, h, ih]
    · simp [matchLoop, List.filter_cons, h, ih]

theorem match_list_eq_filter (ms : List RMatch) :
    match_list ms = ms.filter (fun m => decide (score_threshold < m.score)) := by
  simpa [match_list] using matchLoop_eq_filter ms []

/-- The batch loop distributes over list append. -/
theorem convert_append (xs ys : List PdfDoc) :
    convert_pdf_to_images (xs ++ ys)
      = convert_pdf_to_images xs ++ convert_pdf_to_images ys := by
  induction xs with
  | nil => simp [convert_pdf_to_images]
  | cons d rest ih => simp [convert_pdf_to_images, ih]

/-! ## Claims -/

/-- C1 (code bug): the corpus preparer names page 3 of `report.pdf`
`report_page_3.png` (no zero padding), but the retrieval tool's
`re.sub(r'_page_[0-9][0-9]\.png', '.pdf', ...)` only rewrites
two-digit page suffixes, so the stored name of any page below 10 (or
above 99) is passed through unchanged instead of becoming `report.pdf`;
the zero-padded two-digit form the spec exemplifies does map. -/
theorem page_suffix_digit_mismatch :
    image_file_name (sanitize_filename "report") 2 = "report_page_3.png" ∧
    deriveDocumentName "report_page_3.png" = "report_page_3.png" ∧
    deriveDocumentName "report_page_123.png" = "report_page_123.png" ∧
    deriveDocumentName "report_page_03.png" = "report.pdf" := by
  exact ⟨by decide, by decide, by decide, by decide⟩

/-- C2 counterexample: a match whose similarity score equals the
threshold `0.1` is discarded by the filter, and retrieval with that
single match returns the no-information sentinel, contrary to the
claim that a score equal to `0.1` is kept. -/
theorem threshold_equal_score_discarded :
    sampleMeq.score = score_threshold ∧
    match_list [sampleMeq] = [] ∧
    processMatches [sampleMeq] = RetrieveResult.noInfo := by
  exact ⟨by decide, by decide, by decide⟩

/-- C2 (amended): retrieval requests the 3 nearest stored vectors (its
result depends on the index only through `top_k = 3`), the filter keeps
exactly the matches whose score is strictly greater than `0.1` — a match
scoring exactly `0.1` is discarded — and the sentinel is returned
precisely when no match survives. -/
theorem retrieve_threshold_filter_spec :
    (∀ ms : List RMatch,
      match_list ms = ms.filter (fun m => decide (score_threshold < m.score))) ∧
    (∀ ms : List RMatch,
      processMatches ms = RetrieveResult.noInfo ↔ match_list ms = []) ∧
    retrieve_top_k = 3 ∧
    (∀ (v : Embedding) (qi qi2 : Embedding → Nat → Except ServiceError (List RMatch)),
      (∀ u, qi u retrieve_top_k = qi2 u retrieve_top_k) →
      retreive_data_from_document (Except.ok v) qi
        = retreive_data_from_document (Except.ok v) qi2) := by
  refine ⟨match_list_eq_filter, ?_, rfl, ?_⟩
  · intro ms
    constructor
    · intro h
      cases hml : match_list ms with
      | nil => rfl
      | cons m0 rest => simp [processMatches, hml] at h
    · intro h
      simp [processMatches, h]
  · intro v qi qi2 hagree
    simp [retreive_data_from_document, hagree v]

/-- Witness for C2: with a concrete surviving match, the filter keeps it;
two index functions that agree at `top_k = 3` yield the same retrieval
result even when they differ elsewhere. -/
theorem retrieve_threshold_filter_spec_witness :
    match_list [sampleM1, sampleMeq] = [sampleM1] ∧
    retreive_data_from_document (Except.ok [])
        (fun _ _ => Except.ok [sampleM1])
      = retreive_data_from_document (Except.ok [])
          (fun _ k => if k = 3 then Except.ok [sampleM1] else Except.error "down") := by
  constructor
  · exact (retrieve_threshold_filter_spec.1 [sampleM1, sampleMeq]).trans (by decide)
  · exact retrieve_threshold_filter_spec.2.2.2 []
      (fun _ _ => Except.ok [sampleM1])
      (fun _ k => if k = 3 then Except.ok [sampleM1] else Except.error "down")
      (fun u => by simp [retrieve_top_k])

/-- C3: `retreive_data_from_document` has no exception handler, so a
raised embedding-service or index-service error propagates to the caller
as `Except.error`, and an `Except.error` outcome is never the
`Except.ok` no-information sentinel: the two are distinct constructors. -/
theorem retrieval_failure_distinct :
    (∀ (e : ServiceError) (qi : Embedding → Nat → Except ServiceError (List RMatch)),
      retreive_data_from_document (Except.error e) qi = Except.error e) ∧
    (∀ (v : Embedding) (qi : Embedding → Nat → Except ServiceError (List RMatch))
        (e : ServiceError), qi v retrieve_top_k = Except.error e →
      retreive_data_from_document (Except.ok v) qi = Except.error e) ∧
    (∀ (e : ServiceError) (r : RetrieveResult),
      (Except.error e : Except ServiceError RetrieveResult) ≠ Except.ok r) := by
  refine ⟨fun e qi => rfl, ?_, ?_⟩
  · intro v qi e h
    simp [retreive_data_from_document, h]
  · intro e r h
    exact Except.noConfusion h

/-- Witness for C3: a concrete index failure comes back as
`Except.error "down"`, a concrete embedding failure as
`Except.error "boom"`, and neither equals the ok-wrapped sentinel. -/
theorem retrieval_failure_distinct_witness :
    retreive_data_from_document (Except.ok []) (fun _ _ => Except.error "down")
      = Except.error "down" ∧
    retreive_data_from_document (Except.error "boom") (fun _ _ => Except.ok [])
      = Except.error "boom" ∧
    (Except.error "boom" : Except ServiceError RetrieveResult)
      ≠ Except.ok RetrieveResult.noInfo := by
  exact ⟨retrieval_failure_distinct.2.1 [] (fun _ _ => Except.error "down") "down" rfl,
         retrieval_failure_distinct.1 "boom" (fun _ _ => Except.ok []),
         retrieval_failure_distinct.2.2 "boom" RetrieveResult.noInfo⟩

/-- C4: the surviving matches are a sublist of the index's result, so
the relative order the index returned is preserved, and every list in
the returned bundle enumerates the surviving matches in exactly that
order. -/
theorem evidence_order_preserved :
    ∀ ms : List RMatch,
      List.Sublist (match_list ms) ms ∧
      ∀ md : MatchDict, processMatches ms = RetrieveResult.bundle md →
        md.document_path_list
            = (match_list ms).map (fun m => normalizePath m.metadata.document_path) ∧
        md.page_number_list
            = (match_list ms).map (fun m => stripPageNumber m.metadata.page_number) ∧
        md.page_description_list
            = (match_list ms).map (fun m => [pageDescriptionEntry md.document_name m]) := by
  intro ms
  constructor
  · rw [match_list_eq_filter]
    exact List.filter_sublist ms
  · intro md h
    cases hml : match_list ms with
    | nil => simp [processMatches, hml] at h
    | cons m0 rest =>
      simp only [processMatches, hml] at h
      cases h
      simp [hml]

/-- Witness for C4: for the two concrete surviving matches the bundle's
lists follow the index order `[sampleM1, sampleM2]`. -/
theorem evidence_order_preserved_witness :
    List.Sublist (match_list [sampleM1, sampleM2]) [sampleM1, sampleM2] ∧
    sampleBundle.document_path_list
        = (match_list [sampleM1, sampleM2]).map
            (fun m => normalizePath m.metadata.document_path) ∧
    sampleBundle.page_number_list
        = (match_list [sampleM1, sampleM2]).map
            (fun m => stripPageNumber m.metadata.page_number) ∧
    sampleBundle.page_description_list
        = (match_list [sampleM1, sampleM2]).map
            (fun m => [pageDescriptionEntry sampleBundle.document_name m]) := by
  have h := evidence_order_preserved [sampleM1, sampleM2]
  have hb := h.2 sampleBundle (by decide)
  exact ⟨h.1, hb.1, hb.2.1, hb.2.2⟩

/-- C10: whenever at least one match survives, the assembled bundle
takes its score, its id and its derived document name from the first
surviving match alone, and every per-page citation entry is built with
that one derived document name — also for entries whose match belongs to
a different document. -/
theorem citation_uses_top_match_only :
    ∀ (ms : List RMatch) (m0 : RMatch) (rest : List RMatch),
      match_list ms = m0 :: rest →
      ∀ md : MatchDict, processMatches ms = RetrieveResult.bundle md →
        md.score = m0.score ∧
        md.id = m0.id ∧
        md.document_name = deriveDocumentName m0.metadata.document_name ∧
        md.page_description_list
          = (m0 :: rest).map
              (fun m => [pageDescriptionEntry
                (deriveDocumentName m0.metadata.document_name) m]) := by
  intro ms m0 rest hml md h
  simp only [processMatches, hml] at h
  cases h
  simp

/-- Witness for C10: with surviving matches from the two documents
`alpha` and `beta`, the bundle's score, id and document name come from
the `alpha` top match, and the citation entry for the `beta` page also
says `alpha.pdf`. -/
theorem citation_uses_top_match_only_witness :
    sampleBundle.score = sampleM1.score ∧
    sampleBundle.id = sampleM1.id ∧
    sampleBundle.document_name = deriveDocumentName sampleM1.metadata.document_name ∧
    sampleBundle.page_description_list
      = [sampleM1, sampleM2].map
          (fun m => [pageDescriptionEntry
            (deriveDocumentName sampleM1.metadata.document_name) m]) ∧
    sampleM2.metadata.document_name ≠ sampleM1.metadata.document_name ∧
    sampleBundle.page_description_list.getLastD []
      = ["Source: alpha.pdf, Page Number: page_2,\n Content: descB\n"] := by
  have h := citation_uses_top_match_only [sampleM1, sampleM2] sampleM1 [sampleM2]
    (by decide) sampleBundle (by decide)
  exact ⟨h.1, h.2.1, h.2.2.1, h.2.2.2, by decide, by decide⟩

/-- C5: a successfully converted PDF produces, for every 0-based image
index `i`, a save of `<sanitized-stem>_page_<i+1>.png` (1-based page
numbers) inside the per-document subfolder `documents/<sanitized-stem>`,
and sanitization maps each character of the illegal class to an
underscore while keeping every other character at its position. -/
theorem converter_deterministic_naming :
    (∀ (doc : PdfDoc) (n : Nat), doc.conversion = Except.ok n →
      processOne doc
        = LogEvent.processing doc.name ::
            (List.range n).map (fun i =>
              LogEvent.saved ("documents/" ++ sanitize_filename doc.name ++ "/"
                ++ sanitize_filename doc.name ++ "_page_" ++ Nat.repr (i + 1) ++ ".png"))
            ++ [LogEvent.success doc.name]) ∧
    (∀ s : String, (sanitize_filename s).length = s.length) ∧
    (∀ (s : String) (i : Nat) (h1 : i < s.data.length)
        (h2 : i < (sanitize_filename s).data.length),
      (sanitize_filename s).data.get ⟨i, h2⟩
        = if s.data.get ⟨i, h1⟩ ∈ invalid_filename_chars then '_'
          else s.data.get ⟨i, h1⟩) := by
  refine ⟨?_, ?_, ?_⟩
  · intro doc n h
    simp only [processOne, convertDoc, h]
    simp only [image_path_str, output_dir, image_file_name]
    simp [String.append_assoc]
  · intro s
    simp only [sanitize_filename]
    change (s.data.map fun c => if c ∈ invalid_filename_chars then '_' else c).length
      = s.data.length
    simp
  · intro s i h1 h2
    simp [sanitize_filename]

/-- Witness for C5: page images of the two-page `docAlpha` are
`alpha_page_1.png` and `alpha_page_2.png` under `documents/alpha`, and
sanitizing the illegal characters in `a:b?c` yields `a_b_c` while the
letter at index 0 stays `a`. -/
theorem converter_deterministic_naming_witness :
    processOne docAlpha
      = [LogEvent.processing "alpha",
         LogEvent.saved "documents/alpha/alpha_page_1.png",
         LogEvent.saved "documents/alpha/alpha_page_2.png",
         LogEvent.success "alpha"] ∧
    (sanitize_filename "a:b?c").length = ("a:b?c" : String).length ∧
    sanitize_filename "a:b?c" = "a_b_c" ∧
    (sanitize_filename "a:b?c").data.get ⟨0, by decide⟩
      = if ("a:b?c" : String).data.get ⟨0, by decide⟩ ∈ invalid_filename_chars then '_'
        else ("a:b?c" : String).data.get ⟨0, by decide⟩ := by
  refine ⟨?_, converter_deterministic_naming.2.1 "a:b?c", by decide,
    converter_deterministic_naming.2.2 "a:b?c" 0 (by decide) (by decide)⟩
  exact (converter_deterministic_naming.1 docAlpha 2 rfl).trans (by decide)

/-- C6: the per-document `try`/`except` catches a conversion failure,
logs it, and the batch continues: the events of the documents before and
after a failing document are exactly what they would be on their own,
and the failing document contributes its processing line plus the logged
error, nothing else. -/
theorem batch_continues_after_failure :
    ∀ (xs ys : List PdfDoc) (bad : PdfDoc) (e : String),
      bad.conversion = Except.error e →
      convert_pdf_to_images (xs ++ bad :: ys)
        = convert_pdf_to_images xs
          ++ [LogEvent.processing bad.name, LogEvent.errorProcessing bad.name e]
          ++ convert_pdf_to_images ys := by
  intro xs ys bad e h
  rw [convert_append]
  simp [convert_pdf_to_images, processOne, convertDoc, h]

/-- Witness for C6: with `docBroken` failing between `docAlpha` and
`docGamma`, the batch still emits all of `docGamma`'s events after the
logged failure. -/
theorem batch_continues_after_failure_witness :
    convert_pdf_to_images [docAlpha, docBroken, docGamma]
      = [LogEvent.processing "alpha",
         LogEvent.saved "documents/alpha/alpha_page_1.png",
         LogEvent.saved "documents/alpha/alpha_page_2.png",
         LogEvent.success "alpha",
         LogEvent.processing "bro|ken",
         LogEvent.errorProcessing "bro|ken" "poppler failure",
         LogEvent.processing "gamma",
         LogEvent.saved "documents/gamma/gamma_page_1.png",
         LogEvent.success "gamma"] := by
  exact (batch_continues_after_failure [docAlpha] [docGamma] docBroken
    "poppler failure" rfl).trans (by decide)

/-- Helper: behaviour of the undecorated body of
`write_markdown_to_file`.  When the hash recorded for the markdown
filename equals the hash of the given `(content, image-path list)` pair
and the PDF is on disk, the body skips regeneration, reports the file as
already existing and leaves the state untouched; with a different (or
no) recorded hash, or with the PDF missing, it records the new hash,
writes both files and reports creation. -/
theorem render_cache_policy :
    ∀ (st : RenderState) (content filename : String) (image_paths : List String),
      (lookupHash st.file_hashes (md_filename filename)
          = some (content_hash content image_paths) →
        pdf_filename filename ∈ st.disk →
        write_markdown_to_file st content filename image_paths
          = ("File " ++ filename ++ " already exists with same content.", st)) ∧
      ((∀ h : Int, lookupHash st.file_hashes (md_filename filename) = some h →
            h ≠ content_hash content image_paths) ∨
          pdf_filename filename ∉ st.disk →
        write_markdown_to_file st content filename image_paths
          = ("File " ++ filename ++ " has been created successfully.",
             { file_hashes :=
                 (md_filename filename, content_hash content image_paths)
                   :: st.file_hashes
               disk := pdf_filename filename :: md_filename filename :: st.disk })) := by
  intro st content filename image_paths
  constructor
  · intro hlk hmem
    simp [write_markdown_to_file, hlk, hmem]
  · intro hcase
    cases hl : lookupHash st.file_hashes (md_filename filename) with
    | none => simp [write_markdown_to_file, hl]
    | some h =>
      rcases hcase with hne | hnot
      · simp [write_markdown_to_file, hl, hne h hl]
      · simp [write_markdown_to_file, hl, hnot]

set_option maxRecDepth 100000 in
/-- Helper check for the body: with `blog.md` recorded under the hash
of `("hello", ["img.png"])` and `blog.pdf` present, the same pair is
reported as already existing and nothing changes; with `blog.pdf`
missing, the files are regenerated and the hash re-recorded. -/
theorem render_cache_body_check :
    write_markdown_to_file sampleRenderState "hello" "blog.md" ["img.png"]
      = ("File blog.md already exists with same content.", sampleRenderState) ∧
    write_markdown_to_file sampleRenderStateNoPdf "hello" "blog.md" ["img.png"]
      = ("File blog.md has been created successfully.",
         ⟨[("blog.md", content_hash "hello" ["img.png"]),
           ("blog.md", content_hash "hello" ["img.png"])],
          ["blog.pdf", "blog.md"]⟩) := by
  constructor
  · exact ((render_cache_policy sampleRenderState "hello" "blog.md" ["img.png"]).1
      (by decide) (by decide)).trans (by decide)
  · exact ((render_cache_policy sampleRenderStateNoPdf "hello" "blog.md" ["img.png"]).2
      (Or.inr (by decide))).trans (by decide)

set_option maxRecDepth 100000 in
/-- C7 counterexample: after a first call, the recorded hash matches the
pair and `blog.pdf` is on disk, yet a repeated identical call returns
the memoized creation message — not the already-exists report — because
`@st.cache_data` skips the body; and with `blog.pdf` deleted, the same
repeated call changes nothing, so the missing PDF is not regenerated. -/
theorem render_cache_memoization_counterexample :
    lookupHash cachedState1.inner.file_hashes (md_filename "blog.md")
      = some (content_hash "hello" ["img.png"]) ∧
    pdf_filename "blog.md" ∈ cachedState1.inner.disk ∧
    write_markdown_to_file_cached cachedState1 "hello" "blog.md" ["img.png"]
      = ("File blog.md has been created successfully.", cachedState1) ∧
    ("File blog.md has been created successfully." : String)
      ≠ "File blog.md already exists with same content." ∧
    pdf_filename "blog.md" ∉ cachedState1NoPdf.inner.disk ∧
    write_markdown_to_file_cached cachedState1NoPdf "hello" "blog.md" ["img.png"]
      = ("File blog.md has been created successfully.", cachedState1NoPdf) ∧
    pdf_filename "blog.md" ∉
      (write_markdown_to_file_cached cachedState1NoPdf "hello" "blog.md"
        ["img.png"]).2.inner.disk := by
  refine ⟨by decide, by decide, by decide, by decide, by decide, by decide, by decide⟩

/-- C7 (amended): on a call whose argument tuple is not memoized by
`@st.cache_data`, the hash cache behaves as claimed — a recorded hash
equal to the hash of the `(content, image-path list)` pair with the PDF
still on disk skips regeneration and reports the file as already
existing, and any other hash or a missing PDF regenerates the files —
while a repeated call with a memoized argument tuple returns the
recorded message of the earlier call without running the body, leaving
the state untouched. -/
theorem render_cache_policy_memoized :
    ∀ (st : CachedState) (content filename : String) (image_paths : List String),
      (∀ msg : String, lookupMemo st.memo (content, filename, image_paths) = some msg →
        write_markdown_to_file_cached st content filename image_paths = (msg, st)) ∧
      (lookupMemo st.memo (content, filename, image_paths) = none →
        (lookupHash st.inner.file_hashes (md_filename filename)
            = some (content_hash content image_paths) →
          pdf_filename filename ∈ st.inner.disk →
          write_markdown_to_file_cached st content filename image_paths
            = ("File " ++ filename ++ " already exists with same content.",
               ⟨st.inner,
                ((content, filename, image_paths),
                 "File " ++ filename ++ " already exists with same content.")
                  :: st.memo⟩)) ∧
        ((∀ h : Int, lookupHash st.inner.file_hashes (md_filename filename) = some h →
              h ≠ content_hash content image_paths) ∨
            pdf_filename filename ∉ st.inner.disk →
          write_markdown_to_file_cached st content filename image_paths
            = ("File " ++ filename ++ " has been created successfully.",
               ⟨{ file_hashes :=
                    (md_filename filename, content_hash content image_paths)
                      :: st.inner.file_hashes
                  disk := pdf_filename filename :: md_filename filename
                      :: st.inner.disk },
                ((content, filename, image_paths),
                 "File " ++ filename ++ " has been created successfully.")
                  :: st.memo⟩))) := by
  intro st content filename image_paths
  constructor
  · intro msg hm
    simp [write_markdown_to_file_cached, hm]
  · intro hmiss
    constructor
    · intro hlk hmem
      have hb := (render_cache_policy st.inner content filename image_paths).1 hlk hmem
      simp [write_markdown_to_file_cached, hmiss, hb]
    · intro hcase
      have hb := (render_cache_policy st.inner content filename image_paths).2 hcase
      simp [write_markdown_to_file_cached, hmiss, hb]

set_option maxRecDepth 100000 in
/-- Witness for C7: a first (unmemoized) call on a state whose cache
records `blog.md` under the hash of `("hello", ["img.png"])` with
`blog.pdf` present reports the file as already existing and memoizes
that message; on a state without the record and without the PDF the
call regenerates; and a memoized identical call returns the recorded
message unchanged. -/
theorem render_cache_policy_memoized_witness :
    write_markdown_to_file_cached ⟨sampleRenderState, []⟩ "hello" "blog.md" ["img.png"]
      = ("File blog.md already exists with same content.",
         ⟨sampleRenderState,
          [(("hello", "blog.md", ["img.png"]),
            "File blog.md already exists with same content.")]⟩) ∧
    write_markdown_to_file_cached cachedState0 "hello" "blog.md" ["img.png"]
      = ("File blog.md has been created successfully.",
         ⟨⟨[("blog.md", content_hash "hello" ["img.png"])], ["blog.pdf", "blog.md"]⟩,
          [(("hello", "blog.md", ["img.png"]),
            "File blog.md has been created successfully.")]⟩) ∧
    write_markdown_to_file_cached
        ⟨sampleRenderState,
         [(("hello", "blog.md", ["img.png"]), "File blog.md has been created successfully.")]⟩
        "hello" "blog.md" ["img.png"]
      = ("File blog.md has been created successfully.",
         ⟨sampleRenderState,
          [(("hello", "blog.md", ["img.png"]), "File blog.md has been created successfully.")]⟩) := by
  refine ⟨?_, ?_, ?_⟩
  · exact (((render_cache_policy_memoized ⟨sampleRenderState, []⟩ "hello" "blog.md"
      ["img.png"]).2 rfl).1 (by decide) (by decide)).trans (by decide)
  · exact (((render_cache_policy_memoized cachedState0 "hello" "blog.md"
      ["img.png"]).2 rfl).2 (Or.inr (by decide))).trans (by decide)
  · exact (render_cache_policy_memoized
      ⟨sampleRenderState,
       [(("hello", "blog.md", ["img.png"]), "File blog.md has been created successfully.")]⟩
      "hello" "blog.md" ["img.png"]).1
      "File blog.md has been created successfully." (by decide)

/-- C8 counterexample: the metrics string `"[1, 2]"` does not parse as a
key-value map, yet the validation stores it unchanged with no warning —
it is not replaced by the empty map. -/
theorem metrics_nonmap_kept :
    is_key_value_map respListMetrics.metrics_dict = false ∧
    validate_metrics respListMetrics = (respListMetrics, false) ∧
    respListMetrics.metrics_dict = "[1, 2]" ∧
    "[1, 2]" ≠ emptyMapStr := by
  exact ⟨by decide, by decide, rfl, by decide⟩

/-- C8 (amended): the validation substitutes the empty map (with a
visible warning) exactly when the metrics string fails to parse as JSON
after replacing single quotes by double quotes, where parsing accepts
everything `json.loads` accepts by default, including the non-standard
`NaN`, `Infinity` and `-Infinity` constants; a string parsing as any
such JSON value — a key-value map or not — is stored unchanged, and in
either case the turn completes by inserting the validated record. -/
theorem metrics_validation_spec :
    ∀ r : AgentResponse,
      ((json_loads (quoteSub r.metrics_dict)).isNone = true →
        validate_metrics r = ({ r with metrics_dict := emptyMapStr }, true)) ∧
      ((json_loads (quoteSub r.metrics_dict)).isSome = true →
        validate_metrics r = (r, false)) ∧
      (∀ (hist : List ChatRecord) (q t : String),
        process_turn hist q r t
          = { query := q, response := (validate_metrics r).1, timestamp := t }
              :: hist) := by
  intro r
  refine ⟨?_, ?_, fun hist q t => rfl⟩
  · intro h
    cases hj : json_loads (quoteSub r.metrics_dict) with
    | none => simp [validate_metrics, hj]
    | some v => simp [hj] at h
  · intro h
    cases hj : json_loads (quoteSub r.metrics_dict) with
    | none => simp [hj] at h
    | some v => simp [validate_metrics, hj]

/-- Witness for C8: the unparseable metrics string `"not json"` is
replaced by the empty map with a warning, the parseable `"[1, 2]"` and
the `NaN`-carrying map accepted by `json.loads` are kept unchanged with
no warning, and the turn with the bad response still inserts its
record. -/
theorem metrics_validation_spec_witness :
    validate_metrics respBadMetrics
      = ({ respBadMetrics with metrics_dict := emptyMapStr }, true) ∧
    validate_metrics respListMetrics = (respListMetrics, false) ∧
    validate_metrics respNaNMetrics = (respNaNMetrics, false) ∧
    process_turn [] "q" respBadMetrics "t"
      = [{ query := "q", response := (validate_metrics respBadMetrics).1,
           timestamp := "t" }] := by
  exact ⟨(metrics_validation_spec respBadMetrics).1 (by decide),
         (metrics_validation_spec respListMetrics).2.1 (by decide),
         (metrics_validation_spec respNaNMetrics).2.1 (by decide),
         (metrics_validation_spec respBadMetrics).2.2 [] "q" "t"⟩

/-- C9: a completed turn inserts exactly one new
(query, response, timestamp) record at the front of the transcript; the
previous transcript survives verbatim as the tail (so nothing is removed
or reordered), and every transcript operation has this shape. -/
theorem transcript_newest_first_additive :
    ∀ (hist : List ChatRecord) (q : String) (r : AgentResponse) (t : String),
      process_turn hist q r t
        = { query := q, response := (validate_metrics r).1, timestamp := t } :: hist ∧
      (process_turn hist q r t).length = hist.length + 1 ∧
      List.IsSuffix hist (process_turn hist q r t) ∧
      (∀ op : TranscriptOp, ∃ rec : ChatRecord,
        apply_transcript_op hist op = rec :: hist) := by
  intro hist q r t
  refine ⟨rfl, rfl, ?_, ?_⟩
  · exact ⟨[{ query := q, response := (validate_metrics r).1, timestamp := t }], rfl⟩
  · intro op
    cases op with
    | completedTurn q2 r2 t2 => exact ⟨_, rfl⟩

end KRAgent
